import Mathlib

/-!
Verification development for the `sdmmc-spi` crate: a shallow embedding of
the SD/MMC-over-SPI driver (`src/lib.rs`, `src/crc.rs`, `src/csd.rs`,
`src/consts.rs`, `src/config.rs`, `src/response.rs`) together with theorems
about its claims.

The SPI bus and chip-select line are modelled by scripts: `rxScript` lists
the byte (or transport error) produced by each successive SPI transfer, and
`csScript` lists the outcome of each successive chip-select switch. Every
byte pushed onto the bus is recorded in `txLog`; every chip-select switch is
recorded in `csLog` (`true` = assert/on, `false` = deassert/off). Machine
integers are modelled as `Nat` with explicit reductions modulo `2 ^ w`
wherever the Rust types can overflow or truncate.
-/

set_option maxRecDepth 10000

namespace SdMmcSpi

/-- Driver status bitset (from the `diskio` crate interface): the two flags the
driver uses, `NotInitialized` and `ErrorOccured`. -/
structure Status where
  notInitialized : Bool
  errorOccured : Bool
  deriving Repr, DecidableEq

/-- `Status::default()`: no flags set. -/
def Status.default : Status := ⟨false, false⟩

/-- Card type (src/lib.rs `enum CardType`). -/
inductive CardType where
  | SD1
  | SD2
  | SDHC
  deriving Repr, DecidableEq

/-- Card Specific Data container (src/csd.rs `enum Csd`); the payload is the
u128 produced by `u128::from_be_bytes`. -/
inductive Csd where
  | V1 : Nat → Csd
  | V2 : Nat → Csd
  deriving Repr, DecidableEq

/-- Driver error type (src/lib.rs `enum Error<T, S>`). -/
inductive Error (T S : Type) where
  | Transport : T → Error T S
  | SelectError : S → Error T S
  | CantEnableCRC : Error T S
  | TimeoutReadBuffer : Error T S
  | TimeoutWaitAvailable : Error T S
  | TimeoutCommand : Nat → Error T S
  | ErrorCommand : Nat → Error T S
  | RegisterReadError : Error T S
  | CrcError : Nat → Nat → Error T S
  | ReadError : Error T S
  | WriteError : Error T S
  | BadState : Error T S
  | CardNotFound : Error T S
  deriving Repr, DecidableEq

/-- Facade error type (`diskio::Error`), as used by the `DiskioDevice`
implementation in src/lib.rs. -/
inductive DiskioError (E : Type) where
  | Hardware : E → DiskioError E
  | NotInitialized : DiskioError E
  | AlreadyInitialized : DiskioError E
  | InvalidArgument : DiskioError E
  | NotSupported : DiskioError E
  deriving Repr, DecidableEq

/-- Static configuration (src/config.rs `trait SdMmcSpiConfig`). -/
structure Config where
  CMD_MAX_ATTEMPTS : Nat
  READ_R1_ATTEMPTS : Nat
  ENTER_SPI_MODE_ATTEMPTS : Nat
  DELAY_DUMMY_CYCLES : Nat
  deriving Repr, DecidableEq

/-- Default configuration values (src/config.rs `DefaultSdMmcSpiConfig`). -/
def DefaultSdMmcSpiConfig : Config := ⟨256, 128, 10, 32⟩

/-- Decidable equality for `Except`, needed to decide concrete machine-state
equalities. -/
instance {ε α : Type} [DecidableEq ε] [DecidableEq α] : DecidableEq (Except ε α) := by
  intro x y
  cases x <;> cases y
  case ok.ok a b =>
    exact if h : a = b then .isTrue (by rw [h]) else .isFalse (by simp [h])
  case error.error a b =>
    exact if h : a = b then .isTrue (by rw [h]) else .isFalse (by simp [h])
  case ok.error a b => exact .isFalse (by simp)
  case error.ok a b => exact .isFalse (by simp)

/-- The driver state together with the scripted SPI / chip-select hardware
model: `status`, `card_type` and `csd` are the fields of `SdMmcSpi`;
`rxScript`/`csScript` script the hardware, `txLog`/`csLog` record what the
driver did to it. -/
structure Machine (T S : Type) where
  rxScript : List (Except T Nat)
  csScript : List (Option S)
  txLog : List Nat
  csLog : List Bool
  status : Status
  cardType : CardType
  csd : Csd
  deriving Repr, DecidableEq

/-- Result of a driver-internal operation: the `Result<_, Error<T, S>>` value
plus the machine state afterwards. -/
abbrev MRes (T S α : Type) := Except (Error T S) α × Machine T S

/-- Result of a facade (`DiskioDevice`) operation. -/
abbrev DRes (T S α : Type) := Except (DiskioError (Error T S)) α × Machine T S

/-! Wire-level constants, from src/consts.rs. -/

/-- CMD base value. -/
def CMD_BASE : Nat := 0x40
/-- ACMD flag. -/
def ACMD_FLAG : Nat := 0x80
/-- GO_IDLE_STATE. -/
def CMD0 : Nat := CMD_BASE
/-- SEND_IF_COND. -/
def CMD8 : Nat := CMD_BASE + 8
/-- SEND_CSD. -/
def CMD9 : Nat := CMD_BASE + 9
/-- STOP_TRANSMISSION. -/
def CMD12 : Nat := CMD_BASE + 12
/-- SEND_STATUS. -/
def CMD13 : Nat := CMD_BASE + 13
/-- READ_SINGLE_BLOCK. -/
def CMD17 : Nat := CMD_BASE + 17
/-- READ_MULTIPLE_BLOCK. -/
def CMD18 : Nat := CMD_BASE + 18
/-- WRITE_BLOCK. -/
def CMD24 : Nat := CMD_BASE + 24
/-- WRITE_MULTIPLE_BLOCK. -/
def CMD25 : Nat := CMD_BASE + 25
/-- APP_CMD. -/
def CMD55 : Nat := CMD_BASE + 55
/-- READ_OCR. -/
def CMD58 : Nat := CMD_BASE + 58
/-- CRC_ON_OFF. -/
def CMD59 : Nat := CMD_BASE + 59
/-- SD_SEND_OP_COMD. -/
def ACMD41 : Nat := CMD_BASE + ACMD_FLAG + 41
/-- Start data token for read or write single block. -/
def DATA_START_BLOCK : Nat := 0xFE
/-- Stop token for write multiple blocks. -/
def STOP_TRAN : Nat := 0xFD
/-- Start data token for write multiple blocks. -/
def WRITE_MULTIPLE : Nat := 0xFC
/-- Mask for data response tokens after a write block operation. -/
def DATA_RES_MASK : Nat := 0x1F
/-- Write data accepted token. -/
def DATA_RES_ACCEPTED : Nat := 0x05

/-- Modelled from the spec: `tokens::AVAILABLE` is referenced by src/lib.rs but
absent from the provided src/consts.rs; the spec's wire-level constants list
"0xFF available/busy-idle". -/
def AVAILABLE : Nat := 0xFF

/-- Modelled from the spec: `tokens::CMD8_STATUS` is referenced by src/lib.rs
but absent from the provided src/consts.rs; the spec says a correct R7 echo has
last byte 0xAA. -/
def CMD8_STATUS : Nat := 0xAA

/-- Modelled from the spec: `tokens::CMD58_OCR` is referenced by src/lib.rs but
absent from the provided src/consts.rs; the spec says the OCR CCS bit is 0x40
in the first OCR byte. -/
def CMD58_OCR : Nat := 0x40

/-- Modelled from the spec: `BLOCK_SIZE` is referenced by src/lib.rs but absent
from the provided src/consts.rs; the spec fixes the block size at 512 bytes. -/
def BLOCK_SIZE : Nat := 512

/-! R1 response values, from src/response.rs. -/

/-- R1 ready state. -/
def READY_STATE : Nat := 0x00
/-- R1 in-idle state. -/
def IN_IDLE_STATE : Nat := 0x01
/-- R1 in idle state and illegal command. -/
def IN_IDLE_AND_ILLEGAL : Nat := 0x01 ||| 0x04
/-- R1 invalid mask. -/
def INVALID_MASK : Nat := 0x80

/-- R1 validity check (src/response.rs `R1Response::is_valid`). -/
def r1_is_valid (b : Nat) : Bool := b &&& INVALID_MASK == 0x00

/-! Associated constants of `SdMmcSpi` (src/lib.rs). -/

/-- Init sequence value. -/
def INIT_SET_VALUE : Nat := 0xFF
/-- Init sequence size. -/
def INIT_SET_SIZE : Nat := 10
/-- Receive transfer token. -/
def RECEIVE_TRANSFER_TOKEN : Nat := 0xFF

/-! CRC functions, from src/crc.rs. Both work on u8 / u16 values, modelled as
`Nat` reduced modulo 256 / 65536 where the Rust shifts discard high bits. -/

/-- One inner iteration of `crc7`'s bit loop: shift the crc, conditionally xor
the polynomial 0x09, shift the data byte. -/
def crc7_bits : Nat → Nat → Nat → Nat
  | 0, crc, _ => crc
  | n + 1, crc, byte =>
    let crc1 := (crc <<< 1) % 256
    let crc2 := if ((byte &&& 0x80) ^^^ (crc1 &&& 0x80)) != 0 then crc1 ^^^ 0x09 else crc1
    crc7_bits n crc2 ((byte <<< 1) % 256)

/-- CRC-7 calculation (src/crc.rs `crc7`). -/
def crc7 (data : List Nat) : Nat :=
  data.foldl (fun crc byte => crc7_bits 8 crc byte) 0

/-- One step of `crc16` for a single byte (the body of the loop in
src/crc.rs `crc16`, u16 arithmetic modelled modulo 65536). -/
def crc16_step (crc0 byte : Nat) : Nat :=
  let crc := ((crc0 >>> 8) &&& 0xFF) ||| ((crc0 <<< 8) % 65536)
  let crc := crc ^^^ (byte % 256)
  let crc := crc ^^^ ((crc &&& 0xFF) >>> 4)
  let crc := crc ^^^ ((crc <<< 12) % 65536)
  let crc := crc ^^^ (((crc &&& 0xFF) <<< 5) % 65536)
  crc

/-- CRC-16 calculation (src/crc.rs `crc16`). -/
def crc16 (data : List Nat) : Nat :=
  data.foldl crc16_step 0

/-! CSD decoding, from src/csd.rs. The bitfield accessors extract the ranges
declared in the `bitfield!` blocks from the u128 payload. -/

/-- CsdV1 `device_size`, bits 73..62. -/
def device_size (x : Nat) : Nat := (x >>> 62) &&& 0xFFF

/-- CsdV1 `read_block_length`, bits 83..80. -/
def read_block_length (x : Nat) : Nat := (x >>> 80) &&& 0xF

/-- CsdV1 `device_size_multiplier`, bits 49..47. -/
def device_size_multiplier (x : Nat) : Nat := (x >>> 47) &&& 0x7

/-- CsdV2 `device_size`, bits 69..48. -/
def device_size_v2 (x : Nat) : Nat := (x >>> 48) &&& 0x3FFFFF

/-- CsdV1 `card_capacity` (src/csd.rs lines 100-104): Rust computes
`device_size() << (device_size_multiplier() + read_block_length() + 2)` in u16
(`device_size()` returns u16 and the shift count is a u8 sum), so the shift
count is masked modulo 16 and the result is truncated modulo 2^16, exactly as
release-mode Rust evaluates an overflowing `u16 <<`. -/
def card_capacity_v1 (x : Nat) : Nat :=
  (device_size x <<< ((device_size_multiplier x + read_block_length x + 2) % 16)) % 65536

/-- CsdV1 `card_capacity_blocks` (src/csd.rs lines 106-109):
`(u64::from(device_size()) + 1) << (device_size_multiplier() + read_block_length() - 7)`
where the subtraction is u8 arithmetic (wrapping modulo 256 in release mode)
and the u64 shift count is masked modulo 64. -/
def card_capacity_blocks_v1 (x : Nat) : Nat :=
  ((device_size x + 1) <<<
    (((device_size_multiplier x + read_block_length x + 256 - 7) % 256) % 64)) %
    18446744073709551616

/-- CsdV2 `card_capacity_blocks` (src/csd.rs lines 117-119):
`(device_size + 1) * 1024`. -/
def card_capacity_blocks_v2 (x : Nat) : Nat :=
  ((device_size_v2 x + 1) * 1024) % 18446744073709551616

/-- Modelled from the spec: the v1 `capacity_bytes` formula as the spec states
it, `(device_size + 1) <<< (device_size_multiplier + read_block_length + 2)`;
declared separately from `card_capacity_v1` (which follows the source) so the
two can be compared. -/
def capacity_bytes_v1_spec (x : Nat) : Nat :=
  (device_size x + 1) <<< (device_size_multiplier x + read_block_length x + 2)

/-- `u128::from_be_bytes` on a 16-byte list (src/csd.rs `From<CsdData>`). -/
def bytes_be_to_u128 (bs : List Nat) : Nat :=
  bs.foldl (fun acc b => acc * 256 + b % 256) 0

/-! Transport shim (src/lib.rs lines 192-232). Every SPI transfer consumes one
entry of `rxScript` (the full-duplex byte clocked in) and appends the byte
clocked out to `txLog`. An exhausted script behaves as an idle bus returning
0xFF. -/

/-- Send one byte and receive one byte (src/lib.rs `transfer`). -/
def transfer {T S : Type} (data : Nat) (m : Machine T S) : MRes T S Nat :=
  match m.rxScript with
  | [] => (.ok AVAILABLE, { m with txLog := m.txLog ++ [data % 256] })
  | .ok b :: rest =>
    (.ok (b % 256), { m with rxScript := rest, txLog := m.txLog ++ [data % 256] })
  | .error e :: rest =>
    (.error (.Transport e), { m with rxScript := rest, txLog := m.txLog ++ [data % 256] })

/-- Receive a byte from the SD card by clocking in an 0xFF byte
(src/lib.rs `receive`). -/
def receive {T S : Type} (m : Machine T S) : MRes T S Nat :=
  transfer RECEIVE_TRANSFER_TOKEN m

/-- Send a byte to the SD card (src/lib.rs `send`). -/
def send {T S : Type} (data : Nat) (m : Machine T S) : MRes T S Unit :=
  match transfer data m with
  | (.ok _, m1) => (.ok (), m1)
  | (.error e, m1) => (.error e, m1)

/-- Receive a slice of `n` bytes from the SD card (src/lib.rs
`receive_slice`; the `&mut [u8]` output buffer is modelled by returning the
received bytes). -/
def receive_slice {T S : Type} : Nat → Machine T S → MRes T S (List Nat)
  | 0, m => (.ok [], m)
  | n + 1, m =>
    match receive m with
    | (.error e, m1) => (.error e, m1)
    | (.ok b, m1) =>
      match receive_slice n m1 with
      | (.error e, m2) => (.error e, m2)
      | (.ok bs, m2) => (.ok (b :: bs), m2)

/-- Send a slice to the SD card (src/lib.rs `send_slice`). -/
def send_slice {T S : Type} : List Nat → Machine T S → MRes T S Unit
  | [], m => (.ok (), m)
  | b :: bs, m =>
    match send b m with
    | (.error e, m1) => (.error e, m1)
    | (.ok _, m1) => send_slice bs m1

/-- Skip one received byte (src/lib.rs `skip_byte`). -/
def skip_byte {T S : Type} (m : Machine T S) : MRes T S Unit :=
  match receive m with
  | (.ok _, m1) => (.ok (), m1)
  | (.error e, m1) => (.error e, m1)

/-- Fixed-count busy wait (src/lib.rs `delay`): `DELAY_DUMMY_CYCLES` volatile
reads with no observable effect on the machine. -/
def delay {T S : Type} (m : Machine T S) : Machine T S := m

/-! Chip-select handling (src/lib.rs lines 158-190). Each switch consumes one
entry of `csScript` (`none` = success, `some e` = failure) and appends the
attempted level to `csLog`. -/

/-- One chip-select switch; `level` is `true` for `on` (assert) and `false`
for `off` (deassert). -/
def cs_switch {T S : Type} (level : Bool) (m : Machine T S) : MRes T S Unit :=
  match m.csScript with
  | [] => (.ok (), { m with csLog := m.csLog ++ [level] })
  | none :: rest => (.ok (), { m with csScript := rest, csLog := m.csLog ++ [level] })
  | some e :: rest =>
    (.error (.SelectError e), { m with csScript := rest, csLog := m.csLog ++ [level] })

/-- Activate chip select (src/lib.rs `select`). -/
def select {T S : Type} (m : Machine T S) : MRes T S Unit := cs_switch true m

/-- Deactivate chip select (src/lib.rs `unselect`). -/
def unselect {T S : Type} (m : Machine T S) : MRes T S Unit := cs_switch false m

/-- CS scope (src/lib.rs `cs_scope`): `select()?`, run the body, then
`unselect()?`, and only then return the body's result. The body's result type
is generalized to `α` (the Rust closures return data through captured
buffers). -/
def cs_scope {T S α : Type} (f : Machine T S → MRes T S α) (m : Machine T S) : MRes T S α :=
  match select m with
  | (.error e, m1) => (.error e, m1)
  | (.ok _, m1) =>
    match f m1 with
    | (result, m2) =>
      match unselect m2 with
      | (.error e, m3) => (.error e, m3)
      | (.ok _, m3) => (result, m3)

/-- CS scope mut (src/lib.rs `cs_scope_mut`): identical to `cs_scope` once the
`&mut self` state is made explicit. -/
def cs_scope_mut {T S α : Type} (f : Machine T S → MRes T S α) (m : Machine T S) : MRes T S α :=
  cs_scope f m

/-! Command engine (src/lib.rs lines 234-302). -/

/-- The bounded polling loop of src/lib.rs `wait_for_token`, by remaining
attempts: receive, return the token if the validator accepts it, otherwise
delay and retry. -/
def wait_for_token_go {T S : Type} (validator : Nat → Bool) (err : Error T S) :
    Nat → Machine T S → MRes T S Nat
  | 0, m => (.error err, m)
  | fuel + 1, m =>
    match receive m with
    | (.error e, m1) => (.error e, m1)
    | (.ok token, m1) =>
      if validator token then (.ok token, m1)
      else wait_for_token_go validator err fuel (delay m1)

/-- Wait for a token accepted by `validator`, at most `CMD_MAX_ATTEMPTS`
receives (src/lib.rs `wait_for_token`). -/
def wait_for_token {T S : Type} (cfg : Config) (validator : Nat → Bool) (err : Error T S)
    (m : Machine T S) : MRes T S Nat :=
  wait_for_token_go validator err cfg.CMD_MAX_ATTEMPTS m

/-- Wait for the card to report the available token 0xFF
(src/lib.rs `wait_available_state`). -/
def wait_available_state {T S : Type} (cfg : Config) (m : Machine T S) : MRes T S Unit :=
  match wait_for_token cfg (fun token => token == AVAILABLE) .TimeoutWaitAvailable m with
  | (.ok _, m1) => (.ok (), m1)
  | (.error e, m1) => (.error e, m1)

/-- The 6-byte command frame built in src/lib.rs `send_command_impl` lines
266-276: `[cmd, arg>>24, arg>>16, arg>>8, arg, (crc7 of the first five) << 1 | 0x01]`
with the u8 casts and the u8 shift made explicit. -/
def command_frame (cmd arg : Nat) : List Nat :=
  let buf := [cmd, (arg >>> 24) % 256, (arg >>> 16) % 256, (arg >>> 8) % 256, arg % 256]
  buf ++ [((crc7 buf <<< 1) % 256) ||| 0x01]

/-- The R1 polling loop of src/lib.rs `send_command_impl` lines 284-290, by
remaining attempts: the first receive with the high bit clear is the R1. -/
def read_r1_go {T S : Type} (cmd : Nat) : Nat → Machine T S → MRes T S Nat
  | 0, m => (.error (.TimeoutCommand cmd), m)
  | fuel + 1, m =>
    match receive m with
    | (.error e, m1) => (.error e, m1)
    | (.ok r1, m1) =>
      if r1_is_valid r1 then (.ok r1, m1) else read_r1_go cmd fuel m1

/-- Send command implementation (src/lib.rs `send_command_impl`):
wait-available, emit the 6-byte frame, skip the stuff byte for CMD12, then
poll for an R1 up to `READ_R1_ATTEMPTS` times. -/
def send_command_impl {T S : Type} (cfg : Config) (cmd arg : Nat) (m : Machine T S) :
    MRes T S Nat :=
  match wait_available_state cfg m with
  | (.error e, m1) => (.error e, m1)
  | (.ok _, m1) =>
    match send_slice (command_frame cmd arg) m1 with
    | (.error e, m2) => (.error e, m2)
    | (.ok _, m2) =>
      match (if cmd == CMD12 then skip_byte m2 else (.ok (), m2) : MRes T S Unit) with
      | (.error e, m3) => (.error e, m3)
      | (.ok _, m3) => read_r1_go cmd cfg.READ_R1_ATTEMPTS m3

/-- Send command (src/lib.rs `send_command`): an ACMD-flagged command is
preceded by CMD55 (its R1 ignored), and the flag is cleared before
transmission. -/
def send_command {T S : Type} (cfg : Config) (cmd arg : Nat) (m : Machine T S) :
    MRes T S Nat :=
  match (if cmd &&& ACMD_FLAG != 0 then
           match send_command_impl cfg CMD55 0x00000000 m with
           | (.error e, m1) => (.error e, m1)
           | (.ok _, m1) => (.ok (), m1)
         else (.ok (), m) : MRes T S Unit) with
  | (.error e, m1) => (.error e, m1)
  | (.ok _, m1) => send_command_impl cfg (cmd &&& 0x7F) arg m1

/-! Data phase (src/lib.rs lines 304-338). -/

/-- Read a data block of `n` bytes (src/lib.rs `read_data`): wait for a
non-0xFF token, require the 0xFE start token, receive the payload, receive the
big-endian CRC16 and compare it with the host-computed CRC16. -/
def read_data {T S : Type} (cfg : Config) (n : Nat) (m : Machine T S) :
    MRes T S (List Nat) :=
  match wait_for_token cfg (fun token => token != AVAILABLE) .TimeoutReadBuffer m with
  | (.error e, m1) => (.error e, m1)
  | (.ok token, m1) =>
    if token != DATA_START_BLOCK then (.error .ReadError, m1)
    else
      match receive_slice n m1 with
      | (.error e, m2) => (.error e, m2)
      | (.ok data, m2) =>
        match receive m2 with
        | (.error e, m3) => (.error e, m3)
        | (.ok hi, m3) =>
          match receive m3 with
          | (.error e, m4) => (.error e, m4)
          | (.ok lo, m4) =>
            let card_crc := (hi <<< 8) ||| lo
            let host_crc := crc16 data
            if card_crc != host_crc then (.error (.CrcError card_crc host_crc), m4)
            else (.ok data, m4)

/-- Write a data block (src/lib.rs `write_data`): send the start token, the
payload, the big-endian host CRC16, then require an accepted data-response
token. -/
def write_data {T S : Type} (token : Nat) (data : List Nat) (m : Machine T S) :
    MRes T S Unit :=
  let host_crc := crc16 data
  match send token m with
  | (.error e, m1) => (.error e, m1)
  | (.ok _, m1) =>
    match send_slice data m1 with
    | (.error e, m2) => (.error e, m2)
    | (.ok _, m2) =>
      match send ((host_crc >>> 8) % 256) m2 with
      | (.error e, m3) => (.error e, m3)
      | (.ok _, m3) =>
        match send (host_crc % 256) m3 with
        | (.error e, m4) => (.error e, m4)
        | (.ok _, m4) =>
          match receive m4 with
          | (.error e, m5) => (.error e, m5)
          | (.ok b, m5) =>
            if (b &&& DATA_RES_MASK) != DATA_RES_ACCEPTED then (.error .WriteError, m5)
            else (.ok (), m5)

/-! Initialization FSM (src/lib.rs lines 340-489). -/

/-- The retry loop of src/lib.rs `enter_spi_mode`, by remaining attempts: send
CMD0, accept on R1 = IN_IDLE_STATE, retry after a delay on a wrong R1 or on
`TimeoutCommand(CMD0)`, and fail fast on any other error. -/
def enter_spi_mode_go {T S : Type} (cfg : Config) : Nat → Machine T S → MRes T S Unit
  | 0, m => (.error (.TimeoutCommand CMD0), m)
  | fuel + 1, m =>
    match send_command cfg CMD0 0x00000000 m with
    | (.ok r, m1) =>
      if r == IN_IDLE_STATE then (.ok (), m1)
      else enter_spi_mode_go cfg fuel (delay m1)
    | (.error (.TimeoutCommand c), m1) =>
      if c == CMD0 then enter_spi_mode_go cfg fuel (delay m1)
      else (.error (.TimeoutCommand c), m1)
    | (.error e, m1) => (.error e, m1)

/-- Enter SD to SPI mode (src/lib.rs `enter_spi_mode`): retry CMD0 up to
`ENTER_SPI_MODE_ATTEMPTS` times. -/
def enter_spi_mode {T S : Type} (cfg : Config) (m : Machine T S) : MRes T S Unit :=
  enter_spi_mode_go cfg cfg.ENTER_SPI_MODE_ATTEMPTS m

/-- Enable CRC (src/lib.rs `enable_crc`): CMD59 with argument 1 must answer
IN_IDLE_STATE, otherwise `CantEnableCRC`. -/
def enable_crc {T S : Type} (cfg : Config) (m : Machine T S) : MRes T S Unit :=
  match send_command cfg CMD59 0x00000001 m with
  | (.error e, m1) => (.error e, m1)
  | (.ok r, m1) =>
    if r != IN_IDLE_STATE then (.error .CantEnableCRC, m1) else (.ok (), m1)

/-- The classification loop of src/lib.rs `send_if_cond`, by remaining
attempts: CMD8 answering IN_IDLE_AND_ILLEGAL means SD1; otherwise skip three
trailing R7 bytes and classify SD2 when the fourth equals 0xAA, else retry. -/
def send_if_cond_go {T S : Type} (cfg : Config) : Nat → Machine T S → MRes T S CardType
  | 0, m => (.error (.TimeoutCommand CMD8), m)
  | fuel + 1, m =>
    match send_command cfg CMD8 0x000001AA m with
    | (.error e, m1) => (.error e, m1)
    | (.ok r, m1) =>
      if r == IN_IDLE_AND_ILLEGAL then (.ok .SD1, m1)
      else
        match skip_byte m1 with
        | (.error e, m2) => (.error e, m2)
        | (.ok _, m2) =>
          match skip_byte m2 with
          | (.error e, m3) => (.error e, m3)
          | (.ok _, m3) =>
            match skip_byte m3 with
            | (.error e, m4) => (.error e, m4)
            | (.ok _, m4) =>
              match receive m4 with
              | (.error e, m5) => (.error e, m5)
              | (.ok b, m5) =>
                if b == CMD8_STATUS then (.ok .SD2, m5)
                else send_if_cond_go cfg fuel m5

/-- Verify the SD Memory Card interface operating condition
(src/lib.rs `send_if_cond`), up to `CMD_MAX_ATTEMPTS` attempts. -/
def send_if_cond {T S : Type} (cfg : Config) (m : Machine T S) : MRes T S CardType :=
  send_if_cond_go cfg cfg.CMD_MAX_ATTEMPTS m

/-- The ACMD41 loop of src/lib.rs `send_op_comd`, by remaining attempts:
repeat ACMD41 with the classification's argument until READY_STATE. -/
def send_op_comd_go {T S : Type} (cfg : Config) (arg : Nat) :
    Nat → Machine T S → MRes T S Unit
  | 0, m => (.error (.TimeoutCommand ACMD41), m)
  | fuel + 1, m =>
    match send_command cfg ACMD41 arg m with
    | (.error e, m1) => (.error e, m1)
    | (.ok r, m1) =>
      if r == READY_STATE then (.ok (), m1)
      else send_op_comd_go cfg arg fuel m1

/-- Send host capacity support information and activate
(src/lib.rs `send_op_comd`), up to `CMD_MAX_ATTEMPTS` attempts. -/
def send_op_comd {T S : Type} (cfg : Config) (arg : Nat) (m : Machine T S) : MRes T S Unit :=
  send_op_comd_go cfg arg cfg.CMD_MAX_ATTEMPTS m

/-- Check the SD type (src/lib.rs `check_type`): classify via `send_if_cond`,
issue ACMD41 with argument 0 for SD1 and 0x40000000 otherwise, and for SD2
candidates read the OCR via CMD58 (expecting READY_STATE), promoting to SDHC
when the CCS bit 0x40 of the first OCR byte is set. -/
def check_type {T S : Type} (cfg : Config) (m : Machine T S) : MRes T S CardType :=
  match send_if_cond cfg m with
  | (.error e, m1) => (.error e, m1)
  | (.ok card_type, m1) =>
    let arg : Nat :=
      match card_type with
      | .SD1 => 0x00000000
      | .SD2 => 0x40000000
      | .SDHC => 0x40000000
    match send_op_comd cfg arg m1 with
    | (.error e, m2) => (.error e, m2)
    | (.ok _, m2) =>
      if card_type == .SD2 then
        match send_command cfg CMD58 0x00000000 m2 with
        | (.error e, m3) => (.error e, m3)
        | (.ok r, m3) =>
          if r != READY_STATE then (.error (.ErrorCommand CMD58), m3)
          else
            match receive m3 with
            | (.error e, m4) => (.error e, m4)
            | (.ok b, m4) =>
              let card_type2 := if b &&& CMD58_OCR == CMD58_OCR then CardType.SDHC else card_type
              match skip_byte m4 with
              | (.error e, m5) => (.error e, m5)
              | (.ok _, m5) =>
                match skip_byte m5 with
                | (.error e, m6) => (.error e, m6)
                | (.ok _, m6) =>
                  match skip_byte m6 with
                  | (.error e, m7) => (.error e, m7)
                  | (.ok _, m7) => (.ok card_type2, m7)
      else (.ok card_type, m2)

/-- Read the CSD register (src/lib.rs `read_csd`): CMD9 must answer
READY_STATE, then a 16-byte data block is read and decoded as v1 for SD1 and
v2 for SD2/SDHC. -/
def read_csd {T S : Type} (cfg : Config) (m : Machine T S) : MRes T S Csd :=
  match send_command cfg CMD9 0x00000000 m with
  | (.error e, m1) => (.error e, m1)
  | (.ok r, m1) =>
    if r != READY_STATE then (.error .RegisterReadError, m1)
    else
      match read_data cfg 16 m1 with
      | (.error e, m2) => (.error e, m2)
      | (.ok csd_data, m2) =>
        let x := bytes_be_to_u128 csd_data
        (.ok (match m2.cardType with
              | .SD1 => Csd.V1 x
              | .SD2 => Csd.V2 x
              | .SDHC => Csd.V2 x), m2)

/-- The body of the `cs_scope_mut` closure in src/lib.rs `init` lines 462-470:
enter SPI mode, enable CRC, store the checked card type, then store the
decoded CSD. -/
def init_body {T S : Type} (cfg : Config) (m : Machine T S) : MRes T S Unit :=
  match enter_spi_mode cfg m with
  | (.error e, m1) => (.error e, m1)
  | (.ok _, m1) =>
    match enable_crc cfg m1 with
    | (.error e, m2) => (.error e, m2)
    | (.ok _, m2) =>
      match check_type cfg m2 with
      | (.error e, m3) => (.error e, m3)
      | (.ok ct, m3) =>
        match read_csd cfg { m3 with cardType := ct } with
        | (.error e, m4) => (.error e, m4)
        | (.ok c, m4) => (.ok (), { m4 with csd := c })

/-- The warm-up byte loop of src/lib.rs `init` lines 458-460: send
`INIT_SET_VALUE` the given number of times. -/
def send_init_set {T S : Type} : Nat → Machine T S → MRes T S Unit
  | 0, m => (.ok (), m)
  | n + 1, m =>
    match send INIT_SET_VALUE m with
    | (.error e, m1) => (.error e, m1)
    | (.ok _, m1) => send_init_set n m1

/-- The pre-command-phase part of src/lib.rs `init` lines 456-460: deassert CS
and clock out the 10-byte 0xFF warm-up sequence. -/
def warmup {T S : Type} (m : Machine T S) : MRes T S Unit :=
  match unselect m with
  | (.error e, m1) => (.error e, m1)
  | (.ok _, m1) => send_init_set INIT_SET_SIZE m1

/-- Initialize the SD card (src/lib.rs `init`): warm-up, then the command
phase inside `cs_scope_mut`; on success the status is cleared, on any command
phase failure the status becomes NotInitialized|ErrorOccured and the error is
replaced by `CardNotFound`. Warm-up errors propagate directly. -/
def init {T S : Type} (cfg : Config) (m : Machine T S) : MRes T S Unit :=
  match warmup m with
  | (.error e, m1) => (.error e, m1)
  | (.ok _, m1) =>
    match cs_scope_mut (init_body cfg) m1 with
    | (.ok _, m2) => (.ok (), { m2 with status := Status.default })
    | (.error _, m2) => (.error .CardNotFound, { m2 with status := ⟨true, true⟩ })

/-! Device facade: the `DiskioDevice` implementation (src/lib.rs
lines 492-585). -/

/-- Device status accessor (src/lib.rs `status`). -/
def device_status {T S : Type} (m : Machine T S) : Status := m.status

/-- Device reset (src/lib.rs `reset`): set the status to exactly the
NotInitialized flag; nothing else is touched. -/
def reset {T S : Type} (m : Machine T S) : Machine T S :=
  { m with status := ⟨true, false⟩ }

/-- Device initialization (src/lib.rs `initialize`; primed because
`initialize` is a Lean keyword): refuse when already initialized, otherwise
run `init` and wrap its error as `Hardware`. -/
def initialize' {T S : Type} (cfg : Config) (m : Machine T S) : DRes T S Unit :=
  if !m.status.notInitialized then (.error .AlreadyInitialized, m)
  else
    match init cfg m with
    | (.ok a, m1) => (.ok a, m1)
    | (.error e, m1) => (.error (.Hardware e), m1)

/-- Validate a read/write buffer length (src/lib.rs `validate_buffer_len`). -/
def validate_buffer_len {T S : Type} (buf_len : Nat) : Except (DiskioError (Error T S)) Unit :=
  if buf_len == 0 || buf_len % BLOCK_SIZE != 0 then .error .InvalidArgument else .ok ()

/-- Validate that the driver is initialized (src/lib.rs
`validate_initialized`). -/
def validate_initialized {T S : Type} (m : Machine T S) : Except (DiskioError (Error T S)) Unit :=
  if m.status.notInitialized then .error .NotInitialized else .ok ()

/-- Count of blocks in a buffer (src/lib.rs `get_block_count`). -/
def get_block_count (buf_len : Nat) : Nat := buf_len / BLOCK_SIZE

/-- Convert an LBA to the 32-bit wire argument (src/lib.rs `convert_lba`):
byte addressing (times BLOCK_SIZE, truncated to u32) for SD1/SD2, block
addressing for SDHC. -/
def convert_lba {T S : Type} (m : Machine T S) (lba : Nat) : Nat :=
  match m.cardType with
  | .SD1 => (lba * BLOCK_SIZE) % 4294967296
  | .SD2 => (lba * BLOCK_SIZE) % 4294967296
  | .SDHC => lba % 4294967296

/-- The multi-block loop of src/lib.rs `read` lines 531-533: read the given
number of BLOCK_SIZE chunks. -/
def read_blocks_go {T S : Type} (cfg : Config) : Nat → Machine T S → MRes T S (List Nat)
  | 0, m => (.ok [], m)
  | k + 1, m =>
    match read_data cfg BLOCK_SIZE m with
    | (.error e, m1) => (.error e, m1)
    | (.ok chunk, m1) =>
      match read_blocks_go cfg k m1 with
      | (.error e, m2) => (.error e, m2)
      | (.ok restChunks, m2) => (.ok (chunk ++ restChunks), m2)

/-- Device read (src/lib.rs `read`): validate the buffer length, then that the
driver is initialized, then under a CS scope issue CMD17 + one data block for
a single-block buffer, or CMD18 + the chunk loop + CMD12 for a multi-block
buffer. The `&mut [u8]` buffer is modelled by its length and by returning the
bytes read. -/
def read {T S : Type} (cfg : Config) (buf_len : Nat) (lba : Nat) (m : Machine T S) :
    DRes T S (List Nat) :=
  match validate_buffer_len (T := T) (S := S) buf_len with
  | .error e => (.error e, m)
  | .ok _ =>
    match validate_initialized m with
    | .error e => (.error e, m)
    | .ok _ =>
      let block_count := get_block_count buf_len
      let lba32 := convert_lba m lba
      match cs_scope (fun s =>
        if block_count == 1 then
          match send_command cfg CMD17 lba32 s with
          | (.error e, s1) => (.error e, s1)
          | (.ok _, s1) => read_data cfg BLOCK_SIZE s1
        else
          match send_command cfg CMD18 lba32 s with
          | (.error e, s1) => (.error e, s1)
          | (.ok _, s1) =>
            match read_blocks_go cfg block_count s1 with
            | (.error e, s2) => (.error e, s2)
            | (.ok chunks, s2) =>
              match send_command cfg CMD12 0x00000000 s2 with
              | (.error e, s3) => (.error e, s3)
              | (.ok _, s3) => (.ok chunks, s3)) m with
      | (.ok a, m1) => (.ok a, m1)
      | (.error e, m1) => (.error (.Hardware e), m1)

/-- Split a buffer into BLOCK_SIZE chunks (`buf.chunks(BLOCK_SIZE)` in
src/lib.rs `write`), by fuel on the list length. -/
def chunks_go (n : Nat) : Nat → List Nat → List (List Nat)
  | 0, _ => []
  | _, [] => []
  | fuel + 1, l => l.take n :: chunks_go n fuel (l.drop n)

/-- Split a buffer into BLOCK_SIZE chunks. -/
def chunks (n : Nat) (l : List Nat) : List (List Nat) :=
  chunks_go n l.length l

/-- The multi-block loop of src/lib.rs `write` lines 562-565: for each chunk,
wait for the card then send the chunk with the WRITE_MULTIPLE token. -/
def write_chunks_go {T S : Type} (cfg : Config) : List (List Nat) → Machine T S → MRes T S Unit
  | [], m => (.ok (), m)
  | c :: cs, m =>
    match wait_available_state cfg m with
    | (.error e, m1) => (.error e, m1)
    | (.ok _, m1) =>
      match write_data WRITE_MULTIPLE c m1 with
      | (.error e, m2) => (.error e, m2)
      | (.ok _, m2) => write_chunks_go cfg cs m2

/-- Device write (src/lib.rs `write`): validate the buffer length, then that
the driver is initialized, then under a CS scope issue CMD24 + one data block
+ busy wait + CMD13 status check for a single-block buffer, or CMD25 + the
chunk loop + STOP_TRAN for a multi-block buffer. -/
def write {T S : Type} (cfg : Config) (data : List Nat) (lba : Nat) (m : Machine T S) :
    DRes T S Unit :=
  match validate_buffer_len (T := T) (S := S) data.length with
  | .error e => (.error e, m)
  | .ok _ =>
    match validate_initialized m with
    | .error e => (.error e, m)
    | .ok _ =>
      let block_count := get_block_count data.length
      let lba32 := convert_lba m lba
      match cs_scope (fun s =>
        if block_count == 1 then
          match send_command cfg CMD24 lba32 s with
          | (.error e, s1) => (.error e, s1)
          | (.ok _, s1) =>
            match write_data DATA_START_BLOCK data s1 with
            | (.error e, s2) => (.error e, s2)
            | (.ok _, s2) =>
              match wait_available_state cfg s2 with
              | (.error e, s3) => (.error e, s3)
              | (.ok _, s3) =>
                match send_command cfg CMD13 0x00000000 s3 with
                | (.error e, s4) => (.error e, s4)
                | (.ok r, s4) =>
                  if r != READY_STATE then (.error .WriteError, s4)
                  else
                    match receive s4 with
                    | (.error e, s5) => (.error e, s5)
                    | (.ok b, s5) =>
                      if b != READY_STATE then (.error .WriteError, s5)
                      else (.ok (), s5)
        else
          match send_command cfg CMD25 lba32 s with
          | (.error e, s1) => (.error e, s1)
          | (.ok _, s1) =>
            match write_chunks_go cfg (chunks BLOCK_SIZE data) s1 with
            | (.error e, s2) => (.error e, s2)
            | (.ok _, s2) =>
              match wait_available_state cfg s2 with
              | (.error e, s3) => (.error e, s3)
              | (.ok _, s3) => send STOP_TRAN s3) m with
      | (.ok a, m1) => (.ok a, m1)
      | (.error e, m1) => (.error (.Hardware e), m1)

/-! Concrete fixtures used by the claim theorems and witnesses. -/

/-- A small test configuration: two attempts for every bounded loop. -/
def cfgTest : Config := ⟨2, 2, 2, 0⟩

/-- Build a machine over `T = S = Nat` from scripts, a status and a card
type, with empty logs and a zero v1 CSD. -/
def mkMachine (rx : List (Except Nat Nat)) (cs : List (Option Nat)) (st : Status)
    (ct : CardType) : Machine Nat Nat :=
  ⟨rx, cs, [], [], st, ct, Csd.V1 0⟩

/-- The spec's v1 CSD test vector: `device_size = 3751`,
`device_size_multiplier = 7`, `read_block_length = 9`. -/
def csdV1_test : Nat := 3751 * 2 ^ 62 + 7 * 2 ^ 47 + 9 * 2 ^ 80

/-- SPI script for one command exchange answering `r1`: the available byte,
six don't-care bytes clocked in while the frame goes out, then the R1. -/
def cmdScript (r1 : Nat) : List (Except Nat Nat) :=
  [Except.ok 0xFF] ++ List.replicate 6 (Except.ok 0) ++ [Except.ok r1]

/-- C6 fixture, SD1 path: CMD8 answers 0x05, CMD55 answers 0x01, ACMD41
answers READY. -/
def mC6sd1 : Machine Nat Nat :=
  mkMachine (cmdScript 0x05 ++ cmdScript 0x01 ++ cmdScript 0x00) [] ⟨false, false⟩ .SD1

/-- C6 fixture, SD2 path with OCR first byte `b`: CMD8 answers 0x01 with a
correct 0xAA echo, CMD55/ACMD41/CMD58 succeed, then the four OCR bytes. -/
def mC6sd2 (b : Nat) : Machine Nat Nat :=
  mkMachine
    (cmdScript 0x01 ++ [Except.ok 0, Except.ok 0, Except.ok 1, Except.ok 0xAA] ++
      cmdScript 0x01 ++ cmdScript 0x00 ++ cmdScript 0x00 ++
      [Except.ok b, Except.ok 0, Except.ok 0, Except.ok 0])
    [] ⟨false, false⟩ .SD1

/-- C6 fixture, CMD58 failure path: as the SD2 path but CMD58 answers 0x01
instead of READY. -/
def mC6err : Machine Nat Nat :=
  mkMachine
    (cmdScript 0x01 ++ [Except.ok 0, Except.ok 0, Except.ok 1, Except.ok 0xAA] ++
      cmdScript 0x01 ++ cmdScript 0x00 ++ cmdScript 0x01)
    [] ⟨false, false⟩ .SD1

/-- C7 read fixture: a successful CMD17 exchange followed by a data block of
512 zero bytes with a matching zero CRC16. -/
def mC7read (ct : CardType) : Machine Nat Nat :=
  mkMachine
    (cmdScript 0x00 ++ [Except.ok 0xFE] ++ List.replicate 512 (Except.ok 0) ++
      [Except.ok 0, Except.ok 0])
    [] ⟨false, false⟩ ct

/-- C7 write fixture: a successful CMD24 exchange, 515 don't-care bytes
(1 + 512 + 2, listed in the shape they are consumed) clocked in while the
data block goes out, an accepted data response, a busy poll, a successful
CMD13 exchange and its trailing zero byte. -/
def mC7write (ct : CardType) : Machine Nat Nat :=
  mkMachine
    (cmdScript 0x00 ++ [Except.ok 0] ++ List.replicate 512 (Except.ok 0) ++
      [Except.ok 0, Except.ok 0] ++ [Except.ok 0x05] ++
      [Except.ok 0xFF] ++ cmdScript 0x00 ++ [Except.ok 0])
    [] ⟨false, false⟩ ct

/-- C4 witness fixture: one available byte, six don't-care bytes, one READY
R1. -/
def mC4 : Machine Nat Nat :=
  mkMachine (cmdScript 0x00) [] ⟨false, false⟩ .SD1

/-- C5 witness fixture: one busy byte, the 0xFE start token, 512 zero data
bytes, then the CRC16 bytes 0x00 0x01 (mismatching the zero host CRC). -/
def mC5 : Machine Nat Nat :=
  mkMachine
    (List.replicate 1 (Except.ok 0xFF) ++ [Except.ok 0xFE] ++
      List.replicate 512 (Except.ok 0) ++ [Except.ok 0, Except.ok 1])
    [] ⟨false, false⟩ .SD1

/-- C2 counterexample fixture: a NotInitialized device whose very first
chip-select switch (the warm-up deassert) fails with inner error 7. -/
def mC2ce : Machine Nat Nat := mkMachine [] [some 7] ⟨true, false⟩ .SD1

/-- C2 witness fixture: a NotInitialized device whose warm-up succeeds (the
deassert works and ten bytes clock out) but whose command-phase CS assert
fails with inner error 3. -/
def mC2err : Machine Nat Nat :=
  mkMachine (List.replicate 10 (Except.ok 0)) [none, some 3] ⟨true, false⟩ .SD1

/-- C1 counterexample fixture: CS assert succeeds and CS deassert fails with
inner error 5. -/
def mC1ce : Machine Nat Nat := mkMachine [] [none, some 5] ⟨false, false⟩ .SD1

/-- C1 witness fixture: both CS switches succeed. -/
def mC1w : Machine Nat Nat := mkMachine [] [none, none] ⟨false, false⟩ .SD1

/-- C1 fixture body: a scope body that fails with `WriteError` and leaves the
machine unchanged. -/
def fBodyErr : Machine Nat Nat → MRes Nat Nat Unit := fun m => (.error .WriteError, m)

/-! Toolkit lemmas: how each transport / chip-select primitive acts on a
machine whose script has a known head. -/

theorem transfer_rx_ok {T S : Type} (d b : Nat) (rest : List (Except T Nat)) (m : Machine T S)
    (h : m.rxScript = .ok b :: rest) :
    transfer d m = (.ok (b % 256), { m with rxScript := rest, txLog := m.txLog ++ [d % 256] }) := by
  unfold transfer
  rw [h]

theorem transfer_rx_err {T S : Type} (d : Nat) (e : T) (rest : List (Except T Nat))
    (m : Machine T S) (h : m.rxScript = .error e :: rest) :
    transfer d m =
      (.error (.Transport e), { m with rxScript := rest, txLog := m.txLog ++ [d % 256] }) := by
  unfold transfer
  rw [h]

theorem receive_rx_ok {T S : Type} (b : Nat) (rest : List (Except T Nat)) (m : Machine T S)
    (h : m.rxScript = .ok b :: rest) :
    receive m = (.ok (b % 256), { m with rxScript := rest, txLog := m.txLog ++ [255] }) := by
  unfold receive RECEIVE_TRANSFER_TOKEN
  rw [transfer_rx_ok 0xFF b rest m h]

theorem send_rx_ok {T S : Type} (d b : Nat) (rest : List (Except T Nat)) (m : Machine T S)
    (h : m.rxScript = .ok b :: rest) :
    send d m = (.ok (), { m with rxScript := rest, txLog := m.txLog ++ [d % 256] }) := by
  unfold send
  rw [transfer_rx_ok d b rest m h]

theorem skip_byte_rx_ok {T S : Type} (b : Nat) (rest : List (Except T Nat)) (m : Machine T S)
    (h : m.rxScript = .ok b :: rest) :
    skip_byte m = (.ok (), { m with rxScript := rest, txLog := m.txLog ++ [255] }) := by
  unfold skip_byte
  rw [receive_rx_ok b rest m h]

theorem send_slice_oks {T S : Type} (ds js : List Nat) (rest : List (Except T Nat))
    (m : Machine T S) (h : m.rxScript = js.map Except.ok ++ rest) (hl : js.length = ds.length) :
    send_slice ds m =
      (.ok (), { m with rxScript := rest, txLog := m.txLog ++ ds.map (· % 256) }) := by
  induction ds generalizing js m with
  | nil =>
    have hj : js = [] := List.length_eq_zero.mp (by simpa using hl)
    subst hj
    simp only [List.map_nil, List.nil_append] at h
    cases m
    simp only at h
    subst h
    simp [send_slice]
  | cons d ds ih =>
    match js with
    | [] => simp at hl
    | j :: js =>
      have h1 : m.rxScript = .ok j :: (js.map Except.ok ++ rest) := by simpa using h
      have hs := send_rx_ok d j (js.map Except.ok ++ rest) m h1
      show send_slice (d :: ds) m = _
      rw [send_slice, hs]
      dsimp only
      rw [ih js { m with rxScript := js.map Except.ok ++ rest, txLog := m.txLog ++ [d % 256] }
          (by simp) (by simpa using hl)]
      simp

theorem receive_slice_oks {T S : Type} (ds : List Nat) (rest : List (Except T Nat))
    (m : Machine T S) (h : m.rxScript = ds.map Except.ok ++ rest) :
    receive_slice ds.length m =
      (.ok (ds.map (· % 256)),
        { m with rxScript := rest, txLog := m.txLog ++ List.replicate ds.length 255 }) := by
  induction ds generalizing m with
  | nil =>
    simp only [List.map_nil, List.nil_append] at h
    cases m
    simp only at h
    subst h
    simp [receive_slice]
  | cons d ds ih =>
    have h1 : m.rxScript = .ok d :: (ds.map Except.ok ++ rest) := by simpa using h
    have hr := receive_rx_ok d (ds.map Except.ok ++ rest) m h1
    show receive_slice (ds.length + 1) m = _
    rw [receive_slice, hr]
    dsimp only
    rw [ih { m with rxScript := ds.map Except.ok ++ rest, txLog := m.txLog ++ [255] } (by simp)]
    simp [List.replicate_succ]

theorem wait_go_ok_head {T S : Type} (v : Nat → Bool) (err : Error T S) (fuel b : Nat)
    (rest : List (Except T Nat)) (m : Machine T S) (h : m.rxScript = .ok b :: rest)
    (hv : v (b % 256) = true) :
    wait_for_token_go v err (fuel + 1) m =
      (.ok (b % 256), { m with rxScript := rest, txLog := m.txLog ++ [255] }) := by
  rw [wait_for_token_go, receive_rx_ok b rest m h]
  simp [hv]

theorem wait_go_ff_prefix {T S : Type} (v : Nat → Bool) (err : Error T S) (k j : Nat)
    (rest : List (Except T Nat)) (m : Machine T S)
    (h : m.rxScript = List.replicate k (.ok 0xFF) ++ rest) (hv : v 255 = false) :
    wait_for_token_go v err (k + j) m =
      wait_for_token_go v err j
        { m with rxScript := rest, txLog := m.txLog ++ List.replicate k 255 } := by
  induction k generalizing m with
  | zero =>
    simp only [List.replicate_zero, List.nil_append] at h
    cases m
    simp only at h
    subst h
    simp
  | succ k ih =>
    have h1 : m.rxScript = .ok 0xFF :: (List.replicate k (.ok 0xFF) ++ rest) := by
      simpa [List.replicate_succ] using h
    have hk : k + 1 + j = (k + j) + 1 := by omega
    rw [hk, wait_for_token_go, receive_rx_ok 0xFF (List.replicate k (.ok 0xFF) ++ rest) m h1]
    simp only [Nat.reduceMod, hv, Bool.false_eq_true, if_false]
    dsimp only [delay]
    rw [ih { m with rxScript := List.replicate k (.ok 0xFF) ++ rest, txLog := m.txLog ++ [255] }
      (by simp) ]
    simp [List.replicate_succ, List.append_assoc]

theorem read_r1_ok_head {T S : Type} (cmd fuel b : Nat) (rest : List (Except T Nat))
    (m : Machine T S) (h : m.rxScript = .ok b :: rest) (hv : r1_is_valid (b % 256) = true) :
    read_r1_go cmd (fuel + 1) m =
      (.ok (b % 256), { m with rxScript := rest, txLog := m.txLog ++ [255] }) := by
  rw [read_r1_go, receive_rx_ok b rest m h]
  simp [hv]

theorem cs_switch_none {T S : Type} (level : Bool) (rest : List (Option S)) (m : Machine T S)
    (h : m.csScript = none :: rest) :
    cs_switch level m = (.ok (), { m with csScript := rest, csLog := m.csLog ++ [level] }) := by
  unfold cs_switch
  rw [h]

theorem cs_switch_some {T S : Type} (level : Bool) (e : S) (rest : List (Option S))
    (m : Machine T S) (h : m.csScript = some e :: rest) :
    cs_switch level m =
      (.error (.SelectError e), { m with csScript := rest, csLog := m.csLog ++ [level] }) := by
  unfold cs_switch
  rw [h]

theorem cs_switch_nil {T S : Type} (level : Bool) (m : Machine T S) (h : m.csScript = []) :
    cs_switch level m = (.ok (), { m with csLog := m.csLog ++ [level] }) := by
  unfold cs_switch
  rw [h]

theorem unselect_csLog {T S : Type} (m : Machine T S) :
    (unselect m).2.csLog = m.csLog ++ [false] := by
  unfold unselect cs_switch
  match h : m.csScript with
  | [] => simp
  | none :: rest => simp
  | some e :: rest => simp

/-! Claim theorems. -/

theorem crc16_foldl_chunk (acc n x : Nat) :
    List.foldl crc16_step acc (List.replicate (32 + n) x) =
      List.foldl crc16_step (List.foldl crc16_step acc (List.replicate 32 x))
        (List.replicate n x) := by
  rw [List.replicate_add, List.foldl_append]

theorem crc16_replicate_zero (n : Nat) :
    List.foldl crc16_step 0 (List.replicate n 0) = 0 := by
  induction n with
  | zero => rfl
  | succ k ih =>
    rw [List.replicate_succ, List.foldl_cons, show crc16_step 0 0 = 0 from by decide]
    exact ih

theorem crc16_zeros : crc16 (List.replicate 512 0x00) = 0x0000 := by
  unfold crc16
  exact crc16_replicate_zero 512

theorem crc16_ffs : crc16 (List.replicate 512 0xFF) = 0x7FA1 := by
  unfold crc16
  rw [show (512 : Nat) = 32 + 480 from rfl, crc16_foldl_chunk,
    show List.foldl crc16_step 0 (List.replicate 32 (0xFF : Nat)) = 33972 from by decide,
    show (480 : Nat) = 32 + 448 from rfl, crc16_foldl_chunk,
    show List.foldl crc16_step 33972 (List.replicate 32 (0xFF : Nat)) = 10126 from by decide,
    show (448 : Nat) = 32 + 416 from rfl, crc16_foldl_chunk,
    show List.foldl crc16_step 10126 (List.replicate 32 (0xFF : Nat)) = 35350 from by decide,
    show (416 : Nat) = 32 + 384 from rfl, crc16_foldl_chunk,
    show List.foldl crc16_step 35350 (List.replicate 32 (0xFF : Nat)) = 60841 from by decide,
    show (384 : Nat) = 32 + 352 from rfl, crc16_foldl_chunk,
    show List.foldl crc16_step 60841 (List.replicate 32 (0xFF : Nat)) = 60157 from by decide,
    show (352 : Nat) = 32 + 320 from rfl, crc16_foldl_chunk,
    show List.foldl crc16_step 60157 (List.replicate 32 (0xFF : Nat)) = 37169 from by decide,
    show (320 : Nat) = 32 + 288 from rfl, crc16_foldl_chunk,
    show List.foldl crc16_step 37169 (List.replicate 32 (0xFF : Nat)) = 30040 from by decide,
    show (288 : Nat) = 32 + 256 from rfl, crc16_foldl_chunk,
    show List.foldl crc16_step 30040 (List.replicate 32 (0xFF : Nat)) = 6855 from by decide,
    show (256 : Nat) = 32 + 224 from rfl, crc16_foldl_chunk,
    show List.foldl crc16_step 6855 (List.replicate 32 (0xFF : Nat)) = 12497 from by decide,
    show (224 : Nat) = 32 + 192 from rfl, crc16_foldl_chunk,
    show List.foldl crc16_step 12497 (List.replicate 32 (0xFF : Nat)) = 34441 from by decide,
    show (192 : Nat) = 32 + 160 from rfl, crc16_foldl_chunk,
    show List.foldl crc16_step 34441 (List.replicate 32 (0xFF : Nat)) = 38569 from by decide,
    show (160 : Nat) = 32 + 128 from rfl, crc16_foldl_chunk,
    show List.foldl crc16_step 38569 (List.replicate 32 (0xFF : Nat)) = 38236 from by decide,
    show (128 : Nat) = 32 + 96 from rfl, crc16_foldl_chunk,
    show List.foldl crc16_step 38236 (List.replicate 32 (0xFF : Nat)) = 65043 from by decide,
    show (96 : Nat) = 32 + 64 from rfl, crc16_foldl_chunk,
    show List.foldl crc16_step 65043 (List.replicate 32 (0xFF : Nat)) = 28742 from by decide,
    show (64 : Nat) = 32 + 32 from rfl, crc16_foldl_chunk,
    show List.foldl crc16_step 28742 (List.replicate 32 (0xFF : Nat)) = 28793 from by decide,
    show List.foldl crc16_step 28793 (List.replicate 32 (0xFF : Nat)) = 32673 from by decide]

/-- C8 counterexample: the code's `crc7` returns 0xC3, not 0x43, on the CMD8
vector — the u8 algorithm keeps a stale high bit that only the frame
emitter's `<< 1` discards. -/
theorem C8_crc7_counterexample :
    crc7 [0x48, 0x00, 0x00, 0x01, 0xAA] = 0xC3 ∧
    crc7 [0x48, 0x00, 0x00, 0x01, 0xAA] ≠ 0x43 := by
  decide

/-- C8 (amended): `crc7 [0x40,0,0,0,0] = 0x4A` and
`crc7 [0x48,0,0,0x01,0xAA] = 0xC3` (0x43 plus a retained high bit), the
emitted trailing bytes of the corresponding command frames are 0x95 and 0x87,
and `crc16` of 512 zero bytes is 0x0000 while `crc16` of 512 0xFF bytes is
0x7FA1. -/
theorem C8_crc_vectors :
    crc7 [0x40, 0x00, 0x00, 0x00, 0x00] = 0x4A ∧
    crc7 [0x48, 0x00, 0x00, 0x01, 0xAA] = 0xC3 ∧
    command_frame CMD0 0x00000000 = [0x40, 0x00, 0x00, 0x00, 0x00, 0x95] ∧
    command_frame CMD8 0x000001AA = [0x48, 0x00, 0x00, 0x01, 0xAA, 0x87] ∧
    crc16 (List.replicate 512 0x00) = 0x0000 ∧
    crc16 (List.replicate 512 0xFF) = 0x7FA1 :=
  ⟨by decide, by decide, by decide, by decide, crc16_zeros, crc16_ffs⟩

/-- C10: `reset` sets the status to exactly the NotInitialized flag (clearing
ErrorOccured), performs no SPI transfer and no chip-select switch (scripts and
logs untouched), leaves `card_type` and `csd` unchanged, and is idempotent. -/
theorem C10_reset_state {T S : Type} (m : Machine T S) :
    (reset m).status = ⟨true, false⟩ ∧
    (reset m).rxScript = m.rxScript ∧
    (reset m).csScript = m.csScript ∧
    (reset m).txLog = m.txLog ∧
    (reset m).csLog = m.csLog ∧
    (reset m).cardType = m.cardType ∧
    (reset m).csd = m.csd ∧
    reset (reset m) = reset m :=
  ⟨rfl, rfl, rfl, rfl, rfl, rfl, rfl, rfl⟩

/-- C3: on the spec's own v1 vector (device_size 3751, multiplier 7, read
block length 9) the code's `card_capacity_blocks` matches the claim
(3752 << 9 = 1921024 blocks), but the code's byte capacity drops the `+ 1`
and overflows u16, returning 15004 instead of the claimed
(3751 + 1) << 18 = 983564288. -/
theorem C3_csd_v1_capacity_bug :
    device_size csdV1_test = 3751 ∧
    device_size_multiplier csdV1_test = 7 ∧
    read_block_length csdV1_test = 9 ∧
    card_capacity_blocks_v1 csdV1_test = 1921024 ∧
    (3752 <<< 9 : Nat) = 1921024 ∧
    capacity_bytes_v1_spec csdV1_test = 983564288 ∧
    card_capacity_v1 csdV1_test = 15004 ∧
    card_capacity_v1 csdV1_test ≠ capacity_bytes_v1_spec csdV1_test := by
  decide

/-- C1 counterexample: when the scope body fails with `WriteError` and the CS
deassert fails with inner error 5, `cs_scope` returns the deassert error
`SelectError 5`, not the body's error as the claim states. -/
theorem C1_cs_scope_counterexample :
    cs_scope fBodyErr mC1ce =
      (.error (.SelectError 5), ⟨[], [], [], [true, false], ⟨false, false⟩, .SD1, .V1 0⟩) ∧
    (cs_scope fBodyErr mC1ce).1 ≠ .error .WriteError := by
  decide

/-- C1 (amended): after a successful CS assert, `cs_scope` runs the body and
always attempts the CS deassert — also when the body fails — but the result
is the deassert outcome when the deassert fails (a failing deassert returns
`SelectError`, superseding both a successful and a failed body), and the
body's result only when the deassert succeeds; `cs_scope_mut` behaves
identically. -/
theorem C1_cs_scope_deassert (f : Machine Nat Nat → MRes Nat Nat Unit)
    (m m1 m2 : Machine Nat Nat) (r : Except (Error Nat Nat) Unit)
    (hsel : select m = (.ok (), m1)) (hf : f m1 = (r, m2)) :
    cs_scope f m =
      (match unselect m2 with
       | (.error e, m3) => (.error e, m3)
       | (.ok _, m3) => (r, m3)) ∧
    (cs_scope f m).2.csLog = m2.csLog ++ [false] ∧
    cs_scope_mut f m = cs_scope f m := by
  have h1 : cs_scope f m =
      (match unselect m2 with
       | (.error e, m3) => (.error e, m3)
       | (.ok _, m3) => (r, m3)) := by
    unfold cs_scope
    rw [hsel]
    dsimp only
    rw [hf]
    dsimp only
    rcases hu : unselect m2 with ⟨res, m3⟩
    cases res <;> rfl
  refine ⟨h1, ?_, rfl⟩
  rw [h1]
  have h2 := unselect_csLog m2
  rcases hu : unselect m2 with ⟨res, m3⟩
  rw [hu] at h2
  cases res <;> simpa using h2

/-- C1 witness: with both CS switches succeeding and a body failing with
`WriteError`, the deassert still runs and the body's error is returned. -/
theorem C1_cs_scope_deassert_witness :
    cs_scope fBodyErr mC1w =
      (.error .WriteError, ⟨[], [], [], [true, false], ⟨false, false⟩, .SD1, .V1 0⟩) ∧
    (cs_scope fBodyErr mC1w).2.csLog = [true] ++ [false] ∧
    cs_scope_mut fBodyErr mC1w = cs_scope fBodyErr mC1w :=
  C1_cs_scope_deassert fBodyErr mC1w
    ⟨[], [none], [], [true], ⟨false, false⟩, .SD1, .V1 0⟩
    ⟨[], [none], [], [true], ⟨false, false⟩, .SD1, .V1 0⟩
    (.error .WriteError) (by decide) (by decide)

/-- C9: a zero-length or non-multiple-of-512 buffer makes `read` and `write`
fail with `InvalidArgument` whatever the device state, without touching the
machine (no SPI transfer, no chip-select switch, no state change); a
correctly sized buffer on a NotInitialized device fails with
`NotInitialized`, so the length check precedes the initialization check. -/
theorem C9_validation_order (cfg : Config) (buf_len lba : Nat) (data : List Nat)
    (m : Machine Nat Nat) :
    (buf_len = 0 ∨ buf_len % BLOCK_SIZE ≠ 0 →
      read cfg buf_len lba m = (.error .InvalidArgument, m)) ∧
    (data.length = 0 ∨ data.length % BLOCK_SIZE ≠ 0 →
      write cfg data lba m = (.error .InvalidArgument, m)) ∧
    (buf_len ≠ 0 → buf_len % BLOCK_SIZE = 0 → m.status.notInitialized = true →
      read cfg buf_len lba m = (.error .NotInitialized, m)) ∧
    (data.length ≠ 0 → data.length % BLOCK_SIZE = 0 → m.status.notInitialized = true →
      write cfg data lba m = (.error .NotInitialized, m)) := by
  refine ⟨?_, ?_, ?_, ?_⟩
  · intro h
    have hc : (buf_len == 0 || buf_len % BLOCK_SIZE != 0) = true := by
      rcases h with h | h <;> simp [h]
    unfold read validate_buffer_len
    rw [hc]
    rfl
  · intro h
    have hc : (data.length == 0 || data.length % BLOCK_SIZE != 0) = true := by
      rcases h with h | h <;> simp [h]
    unfold write validate_buffer_len
    rw [hc]
    rfl
  · intro h1 h2 h3
    have hc : (buf_len == 0 || buf_len % BLOCK_SIZE != 0) = false := by simp [h1, h2]
    unfold read validate_buffer_len validate_initialized
    rw [hc]
    dsimp only
    rw [h3]
    rfl
  · intro h1 h2 h3
    have hc : (data.length == 0 || data.length % BLOCK_SIZE != 0) = false := by simp [h1, h2]
    unfold write validate_buffer_len validate_initialized
    rw [hc]
    dsimp only
    rw [h3]
    rfl

/-- C9 witness: a 300-byte buffer is rejected with `InvalidArgument` on an
initialized device, and a 512-byte buffer on a NotInitialized device is
rejected with `NotInitialized`. -/
theorem C9_validation_order_witness :
    read cfgTest 300 0 (mkMachine [] [] ⟨false, false⟩ .SD1) =
      (.error .InvalidArgument, mkMachine [] [] ⟨false, false⟩ .SD1) ∧
    read cfgTest 512 0 (mkMachine [] [] ⟨true, false⟩ .SD1) =
      (.error .NotInitialized, mkMachine [] [] ⟨true, false⟩ .SD1) :=
  ⟨(C9_validation_order cfgTest 300 0 [] (mkMachine [] [] ⟨false, false⟩ .SD1)).1
      (Or.inr (by decide)),
   (C9_validation_order cfgTest 512 0 [] (mkMachine [] [] ⟨true, false⟩ .SD1)).2.2.1
      (by decide) (by decide) rfl⟩

/-- C2 counterexample: on a NotInitialized device whose very first CS switch
(the warm-up deassert, before the command phase) fails, `initialize` returns
the untranslated `Hardware (SelectError 7)` — not `Hardware CardNotFound` —
and leaves the status unchanged instead of NotInitialized|ErrorOccured. -/
theorem C2_initialize_counterexample :
    initialize' cfgTest mC2ce =
      (.error (.Hardware (.SelectError 7)), ⟨[], [], [], [false], ⟨true, false⟩, .SD1, .V1 0⟩) ∧
    (initialize' cfgTest mC2ce).2.status ≠ ⟨true, true⟩ ∧
    (initialize' cfgTest mC2ce).1 ≠ .error (.Hardware .CardNotFound) := by
  decide

/-- C2 (amended): on a NotInitialized device, a failure of the warm-up phase
(the initial CS deassert or the ten 0xFF bytes) propagates untranslated
through `initialize` and leaves the status unchanged, while any failure of
the CS-scoped command phase surfaces as `Hardware CardNotFound` with status
NotInitialized|ErrorOccured, and a fully successful run clears the status. -/
theorem C2_init_error_translation (cfg : Config) (m : Machine Nat Nat)
    (h : m.status.notInitialized = true) :
    (∀ e m1, warmup m = (.error e, m1) → initialize' cfg m = (.error (.Hardware e), m1)) ∧
    (∀ m1 m2 e, warmup m = (.ok (), m1) →
      cs_scope_mut (init_body cfg) m1 = (.error e, m2) →
      initialize' cfg m =
        (.error (.Hardware .CardNotFound), { m2 with status := ⟨true, true⟩ })) ∧
    (∀ m1 m2, warmup m = (.ok (), m1) →
      cs_scope_mut (init_body cfg) m1 = (.ok (), m2) →
      initialize' cfg m = (.ok (), { m2 with status := Status.default })) := by
  refine ⟨?_, ?_, ?_⟩
  · intro e m1 hw
    unfold initialize' init
    simp only [h, Bool.not_true, Bool.false_eq_true, if_false]
    rw [hw]
  · intro m1 m2 e hw hs
    unfold initialize' init
    simp only [h, Bool.not_true, Bool.false_eq_true, if_false]
    rw [hw]
    dsimp only
    rw [hs]
  · intro m1 m2 hw hs
    unfold initialize' init
    simp only [h, Bool.not_true, Bool.false_eq_true, if_false]
    rw [hw]
    dsimp only
    rw [hs]

/-- C2 witness: warm-up succeeds, then the command phase's CS assert fails,
and `initialize` reports `Hardware CardNotFound` with status
NotInitialized|ErrorOccured. -/
theorem C2_init_error_translation_witness :
    initialize' cfgTest mC2err =
      (.error (.Hardware .CardNotFound),
        ⟨[], [], [255, 255, 255, 255, 255, 255, 255, 255, 255, 255], [false, true], ⟨true, true⟩, .SD1, .V1 0⟩) :=
  (C2_init_error_translation cfgTest mC2err rfl).2.1
    ⟨[], [some 3], [255, 255, 255, 255, 255, 255, 255, 255, 255, 255], [false], ⟨true, false⟩, .SD1, .V1 0⟩
    ⟨[], [], [255, 255, 255, 255, 255, 255, 255, 255, 255, 255], [false, true], ⟨true, false⟩, .SD1, .V1 0⟩
    (.SelectError 3) (by decide) (by decide)

theorem map_mod_256 (l : List Nat) (h : ∀ x ∈ l, x < 256) : l.map (· % 256) = l := by
  induction l with
  | nil => rfl
  | cons x xs ih =>
    simp only [List.map_cons]
    rw [Nat.mod_eq_of_lt (h x (by simp)), ih (fun y hy => h y (by simp [hy]))]

theorem lor_one_testBit (x : Nat) : Nat.testBit (x ||| 1) 0 = true := by
  simp [Nat.testBit_or]

theorem crc_byte_lt (c : Nat) : ((c <<< 1) % 256) ||| 0x01 < 256 := by
  have h := Nat.or_lt_two_pow (x := (c <<< 1) % 256) (y := 1) (n := 8)
    (by norm_num [Nat.mod_lt]) (by norm_num)
  simpa using h

theorem command_frame_lt (cmd arg : Nat) (h : cmd < 256) :
    ∀ x ∈ command_frame cmd arg, x < 256 := by
  intro x hx
  simp only [command_frame, List.cons_append, List.nil_append, List.mem_cons,
    List.not_mem_nil, or_false] at hx
  rcases hx with h1 | h1 | h1 | h1 | h1 | h1 <;> subst h1
  · exact h
  · exact Nat.mod_lt _ (by norm_num)
  · exact Nat.mod_lt _ (by norm_num)
  · exact Nat.mod_lt _ (by norm_num)
  · exact Nat.mod_lt _ (by norm_num)
  · exact crc_byte_lt _

theorem command_frame_map_mod (cmd arg : Nat) (h : cmd < 256) :
    (command_frame cmd arg).map (· % 256) = command_frame cmd arg :=
  map_mod_256 _ (command_frame_lt cmd arg h)

/-- C4: for every command code and every 32-bit argument, `send_command_impl`
transmits, after the availability poll, exactly the 6-byte frame
`[cmd, arg[31:24], arg[23:16], arg[15:8], arg[7:0], crc7(first five) << 1 | 1]`,
whose trailing byte has bit 0 set; the same frame (with its CMD12 code) is
transmitted for CMD12, followed by the stuff-byte skip. -/
theorem C4_send_command_frame (cfg : Config) (a b cmd arg : Nat) (m m2 : Machine Nat Nat)
    (rest rest2 : List (Except Nat Nat))
    (ha : cfg.CMD_MAX_ATTEMPTS = a + 1) (hb : cfg.READ_R1_ATTEMPTS = b + 1)
    (hcmd : cmd < 256) (hne : cmd ≠ CMD12)
    (hrx : m.rxScript =
      .ok 0xFF :: (List.replicate 6 (Except.ok 0) ++ (.ok 0 :: rest)))
    (hrx2 : m2.rxScript =
      .ok 0xFF :: (List.replicate 6 (Except.ok 0) ++ (.ok 0 :: .ok 0 :: rest2))) :
    send_command_impl cfg cmd arg m =
      (.ok 0,
        { m with
            rxScript := rest,
            txLog := m.txLog ++ [255] ++
              [cmd, (arg >>> 24) % 256, (arg >>> 16) % 256, (arg >>> 8) % 256, arg % 256,
                ((crc7 [cmd, (arg >>> 24) % 256, (arg >>> 16) % 256, (arg >>> 8) % 256,
                  arg % 256] <<< 1) % 256) ||| 0x01] ++ [255] }) ∧
    Nat.testBit
      (((crc7 [cmd, (arg >>> 24) % 256, (arg >>> 16) % 256, (arg >>> 8) % 256,
        arg % 256] <<< 1) % 256) ||| 0x01) 0 = true ∧
    send_command_impl cfg CMD12 arg m2 =
      (.ok 0,
        { m2 with
            rxScript := rest2,
            txLog := m2.txLog ++ [255] ++
              [CMD12, (arg >>> 24) % 256, (arg >>> 16) % 256, (arg >>> 8) % 256, arg % 256,
                ((crc7 [CMD12, (arg >>> 24) % 256, (arg >>> 16) % 256, (arg >>> 8) % 256,
                  arg % 256] <<< 1) % 256) ||| 0x01] ++ [255, 255] }) := by
  refine ⟨?_, lor_one_testBit _, ?_⟩
  · unfold send_command_impl wait_available_state wait_for_token
    rw [ha, wait_go_ok_head _ _ a 0xFF _ m hrx (by decide)]
    dsimp only
    rw [send_slice_oks (command_frame cmd arg) (List.replicate 6 0) (.ok 0 :: rest)
      _ (by simp) (by simp [command_frame])]
    dsimp only
    rw [show (cmd == CMD12) = false from beq_eq_false_iff_ne.mpr hne,
      if_neg (show ¬((false : Bool) = true) from by decide)]
    dsimp only
    rw [hb, read_r1_ok_head cmd b 0 rest _ (by simp) (by decide)]
    rw [command_frame_map_mod cmd arg hcmd]
    simp [command_frame, List.append_assoc]
  · unfold send_command_impl wait_available_state wait_for_token
    rw [ha, wait_go_ok_head _ _ a 0xFF _ m2 hrx2 (by decide)]
    dsimp only
    rw [send_slice_oks (command_frame CMD12 arg) (List.replicate 6 0)
      (.ok 0 :: .ok 0 :: rest2) _ (by simp) (by simp [command_frame])]
    dsimp only
    rw [show (CMD12 == CMD12) = true from by decide,
      if_pos (show ((true : Bool) = true) from rfl)]
    rw [skip_byte_rx_ok 0 (.ok 0 :: rest2) _ (by simp)]
    dsimp only
    rw [hb, read_r1_ok_head CMD12 b 0 rest2 _ (by simp) (by decide)]
    rw [command_frame_map_mod CMD12 arg (by decide)]
    simp [command_frame, List.append_assoc]

/-- C4 witness: the CMD17 frame for argument 42 is transmitted byte-exactly
with trailing byte 0x85 (odd). -/
theorem C4_send_command_frame_witness :
    send_command_impl cfgTest 0x51 42 mC4 =
      (.ok 0,
        ⟨[], [], [255, 0x51, 0x00, 0x00, 0x00, 42, 0x85, 255], [],
          ⟨false, false⟩, .SD1, .V1 0⟩) ∧
    Nat.testBit 0x85 0 = true := by
  have h := C4_send_command_frame cfgTest 1 1 0x51 42 mC4
    ⟨[Except.ok 0xFF] ++ List.replicate 6 (Except.ok 0) ++ [Except.ok 0, Except.ok 0],
      [], [], [], ⟨false, false⟩, .SD1, .V1 0⟩ [] []
    rfl rfl (by decide) (by decide) (by simp [mC4, mkMachine, cmdScript]) (by simp)
  have hc : crc7 [0x51, 0x00, 0x00, 0x00, 42] = 0x42 := by decide
  refine ⟨?_, by decide⟩
  have h1 := h.1
  simpa [mC4, mkMachine, hc] using h1

theorem wait_go_ff_timeout {T S : Type} (v : Nat → Bool) (err : Error T S) (k : Nat)
    (rest : List (Except T Nat)) (m : Machine T S)
    (h : m.rxScript = List.replicate k (.ok 0xFF) ++ rest) (hv : v 255 = false) :
    wait_for_token_go v err k m =
      (.error err, { m with rxScript := rest, txLog := m.txLog ++ List.replicate k 255 }) := by
  have hp := wait_go_ff_prefix v err k 0 rest m h hv
  rw [Nat.add_zero] at hp
  rw [hp]
  rfl

theorem be_bytes_val (c1 c2 : Nat) (h : c2 < 256) : (c1 <<< 8) ||| c2 = 256 * c1 + c2 := by
  have h2 : (2 : Nat) ^ 8 * c1 + c2 = (2 : Nat) ^ 8 * c1 ||| c2 :=
    Nat.mul_add_lt_is_or (by simpa using h) c1
  calc (c1 <<< 8) ||| c2 = (2 : Nat) ^ 8 * c1 ||| c2 := by rw [Nat.shiftLeft_eq, Nat.mul_comm]
    _ = (2 : Nat) ^ 8 * c1 + c2 := h2.symm
    _ = 256 * c1 + c2 := by norm_num

/-- C5: `read_data` on a 512-byte buffer polls for a non-0xFF token for at
most `CMD_MAX_ATTEMPTS` receives and times out with `TimeoutReadBuffer`; a
first non-0xFF token other than 0xFE fails with `ReadError`; a 0xFE token is
followed by 512 payload bytes and two CRC bytes read big-endian, failing with
`CrcError (card) (host)` — the card's value first — exactly when they differ
from the host CRC16 of the payload, and returning the payload otherwise. -/
theorem C5_read_data_behavior (cfg : Config) (m : Machine Nat Nat) :
    (∀ rest, m.rxScript = List.replicate cfg.CMD_MAX_ATTEMPTS (Except.ok 0xFF) ++ rest →
      read_data cfg 512 m =
        (.error .TimeoutReadBuffer,
          { m with
              rxScript := rest,
              txLog := m.txLog ++ List.replicate cfg.CMD_MAX_ATTEMPTS 255 })) ∧
    (∀ k j t rest, cfg.CMD_MAX_ATTEMPTS = k + (j + 1) → t < 256 → t ≠ 0xFF → t ≠ 0xFE →
      m.rxScript = List.replicate k (Except.ok 0xFF) ++ (.ok t :: rest) →
      read_data cfg 512 m =
        (.error .ReadError,
          { m with rxScript := rest, txLog := m.txLog ++ List.replicate (k + 1) 255 })) ∧
    (∀ k j data c1 c2 rest, cfg.CMD_MAX_ATTEMPTS = k + (j + 1) →
      data.length = 512 → (∀ x ∈ data, x < 256) → c1 < 256 → c2 < 256 →
      m.rxScript = List.replicate k (Except.ok 0xFF) ++
        (.ok 0xFE :: (data.map Except.ok ++ (.ok c1 :: .ok c2 :: rest))) →
      read_data cfg 512 m =
        (if 256 * c1 + c2 ≠ crc16 data
         then .error (.CrcError (256 * c1 + c2) (crc16 data))
         else .ok data,
          { m with
              rxScript := rest,
              txLog := m.txLog ++ List.replicate (k + 1) 255 ++
                List.replicate 512 255 ++ [255, 255] })) := by
  refine ⟨?_, ?_, ?_⟩
  · intro rest hrx
    unfold read_data wait_for_token
    rw [wait_go_ff_timeout _ _ cfg.CMD_MAX_ATTEMPTS rest m hrx (by decide)]
  · intro k j t rest hfuel ht hff hfe hrx
    unfold read_data wait_for_token
    rw [hfuel, wait_go_ff_prefix _ _ k (j + 1) _ m hrx (by decide),
      wait_go_ok_head _ _ j t rest _ (by simp)
        (by simp [AVAILABLE, Nat.mod_eq_of_lt ht, bne_iff_ne]; exact hff)]
    dsimp only
    rw [show ((t % 256) != DATA_START_BLOCK) = true from by
        simpa [DATA_START_BLOCK, Nat.mod_eq_of_lt ht, bne_iff_ne] using hfe,
      if_pos (show ((true : Bool) = true) from rfl)]
    simp [List.append_assoc, List.replicate_succ']
  · intro k j data c1 c2 rest hfuel hlen hdata hc1 hc2 hrx
    unfold read_data wait_for_token
    rw [hfuel, wait_go_ff_prefix _ _ k (j + 1) _ m hrx (by decide),
      wait_go_ok_head _ _ j 0xFE (data.map Except.ok ++ (.ok c1 :: .ok c2 :: rest)) _
        (by simp) (by decide)]
    dsimp only
    rw [show ((0xFE % 256 : Nat) != DATA_START_BLOCK) = false from by decide,
      if_neg (show ¬((false : Bool) = true) from by decide)]
    rw [show (512 : Nat) = data.length from hlen.symm,
      receive_slice_oks data (.ok c1 :: .ok c2 :: rest) _ (by simp)]
    dsimp only
    rw [map_mod_256 data hdata,
      receive_rx_ok c1 (.ok c2 :: rest) _ (by simp)]
    dsimp only
    rw [receive_rx_ok c2 rest _ (by simp)]
    dsimp only
    rw [Nat.mod_eq_of_lt hc1, Nat.mod_eq_of_lt hc2, be_bytes_val c1 c2 hc2]
    by_cases hcc : 256 * c1 + c2 = crc16 data
    · simp [hcc, hlen, List.append_assoc, List.replicate_succ']
    · simp [hcc, hlen, List.append_assoc, List.replicate_succ']

/-- C5 witness: one busy byte, a start token, 512 zero bytes and a card CRC
of 0x0001 against a host CRC of 0x0000 produce `CrcError 1 0`. -/
theorem C5_read_data_behavior_witness :
    read_data cfgTest 512 mC5 =
      (.error (.CrcError 1 0),
        ⟨[], [], List.replicate 2 255 ++ List.replicate 512 255 ++ [255, 255], [],
          ⟨false, false⟩, .SD1, .V1 0⟩) := by
  have h := (C5_read_data_behavior cfgTest mC5).2.2 1 0 (List.replicate 512 0) 0 1 []
    rfl (by simp) (by simp) (by decide) (by decide) (by simp [mC5, mkMachine])
  rw [crc16_zeros] at h
  simpa [mC5, mkMachine] using h

/-- C6: during classification, CMD8 answering 0x05 (IN_IDLE_AND_ILLEGAL)
yields SD1 and ACMD41 is issued with argument 0 (frames CMD55 = 0x77 then
0x69 with arg bytes 0,0,0,0) and no CMD58 frame (0x7A) is ever sent;
otherwise the four trailing R7 bytes are read and a last byte of 0xAA makes
the card an SD2 candidate with ACMD41 argument 0x40000000 (frame 0x69 with
arg bytes 0x40,0,0,0), CMD58 is issued (frame 0x7A) expecting READY — a
non-READY R1 fails with ErrorCommand(CMD58) — and the classification becomes
SDHC exactly when bit 0x40 of the first OCR byte is set. -/
theorem C6_check_type_classification :
    (check_type cfgTest mC6sd1 =
      (.ok .SD1,
        ⟨[], [],
          [255, 0x48, 0, 0, 1, 0xAA, 0x87, 255, 255, 0x77, 0, 0, 0, 0, 0x65, 255,
            255, 0x69, 0, 0, 0, 0, 0xE5, 255],
          [], ⟨false, false⟩, .SD1, .V1 0⟩)) ∧
    ((0x7A : Nat) ∉ (check_type cfgTest mC6sd1).2.txLog) ∧
    (∀ b : Fin 256,
      (check_type cfgTest (mC6sd2 b.val)).1 =
        .ok (if b.val &&& CMD58_OCR == CMD58_OCR then CardType.SDHC else CardType.SD2)) ∧
    ((check_type cfgTest (mC6sd2 0xC0)).2.txLog =
      [255, 0x48, 0, 0, 1, 0xAA, 0x87, 255, 255, 255, 255, 255, 255, 0x77, 0, 0, 0, 0,
        0x65, 255, 255, 0x69, 0x40, 0, 0, 0, 0x77, 255, 255, 0x7A, 0, 0, 0, 0, 0xFD, 255,
        255, 255, 255, 255]) ∧
    ((check_type cfgTest mC6err).1 = .error (.ErrorCommand CMD58)) := by
  refine ⟨by decide, by decide, by decide, by decide, by decide⟩

theorem send_command_impl_script (cfg : Config) (a b cmd arg r1 : Nat) (m : Machine Nat Nat)
    (rest : List (Except Nat Nat))
    (ha : cfg.CMD_MAX_ATTEMPTS = a + 1) (hb : cfg.READ_R1_ATTEMPTS = b + 1)
    (hne : cmd ≠ CMD12) (hr1 : r1 < 256) (hval : r1_is_valid r1 = true)
    (hrx : m.rxScript = .ok 0xFF :: (List.replicate 6 (Except.ok 0) ++ (.ok r1 :: rest))) :
    send_command_impl cfg cmd arg m =
      (.ok r1,
        { m with
            rxScript := rest,
            txLog := m.txLog ++ 255 :: ((command_frame cmd arg).map (· % 256) ++ [255]) }) := by
  unfold send_command_impl wait_available_state wait_for_token
  rw [ha, wait_go_ok_head _ _ a 0xFF _ m hrx (by decide)]
  dsimp only
  rw [send_slice_oks (command_frame cmd arg) (List.replicate 6 0) (.ok r1 :: rest)
    _ (by simp) (by simp [command_frame])]
  dsimp only
  rw [show (cmd == CMD12) = false from beq_eq_false_iff_ne.mpr hne,
    if_neg (show ¬((false : Bool) = true) from by decide)]
  dsimp only
  rw [hb, read_r1_ok_head cmd b r1 rest _ (by simp)
    (by rw [Nat.mod_eq_of_lt hr1]; exact hval)]
  rw [Nat.mod_eq_of_lt hr1]
  simp [List.append_assoc]

theorem read_data_script_ok (cfg : Config) (a : Nat) (data : List Nat) (c1 c2 : Nat)
    (rest : List (Except Nat Nat)) (m : Machine Nat Nat)
    (ha : cfg.CMD_MAX_ATTEMPTS = a + 1)
    (hdata : ∀ x ∈ data, x < 256) (hc1 : c1 < 256) (hc2 : c2 < 256)
    (hrx : m.rxScript = .ok 0xFE :: (data.map Except.ok ++ (.ok c1 :: .ok c2 :: rest))) :
    read_data cfg data.length m =
      (if 256 * c1 + c2 ≠ crc16 data
       then .error (.CrcError (256 * c1 + c2) (crc16 data))
       else .ok data,
        { m with
            rxScript := rest,
            txLog := m.txLog ++ 255 :: (List.replicate data.length 255 ++ [255, 255]) }) := by
  unfold read_data wait_for_token
  rw [ha, wait_go_ok_head _ _ a 0xFE (data.map Except.ok ++ (.ok c1 :: .ok c2 :: rest)) _
    hrx (by decide)]
  dsimp only
  rw [show ((0xFE % 256 : Nat) != DATA_START_BLOCK) = false from by decide,
    if_neg (show ¬((false : Bool) = true) from by decide),
    receive_slice_oks data (.ok c1 :: .ok c2 :: rest) _ (by simp)]
  dsimp only
  rw [map_mod_256 data hdata, receive_rx_ok c1 (.ok c2 :: rest) _ (by simp)]
  dsimp only
  rw [receive_rx_ok c2 rest _ (by simp)]
  dsimp only
  rw [Nat.mod_eq_of_lt hc1, Nat.mod_eq_of_lt hc2, be_bytes_val c1 c2 hc2]
  by_cases hcc : 256 * c1 + c2 = crc16 data
  · simp [hcc, List.append_assoc]
  · simp [hcc, List.append_assoc]

set_option maxHeartbeats 2000000 in
/-- C7: for every LBA on an initialized device, the 32-bit wire argument of
the data command (CMD17 for read, CMD24 for write) is `lba * 512` truncated
to 32 bits for SD1/SD2 card types and exactly `lba` for SDHC, as computed by
`convert_lba` and transmitted in the command frame. -/
theorem C7_lba_conversion (lba : Nat) (hl : lba < 4294967296) (ct : CardType) :
    convert_lba (mC7read ct) lba =
      (if ct = .SDHC then lba else (lba * 512) % 4294967296) ∧
    read cfgTest 512 lba (mC7read ct) =
      (.ok (List.replicate 512 0),
        ⟨[], [],
          255 :: (command_frame CMD17 (if ct = .SDHC then lba else (lba * 512) % 4294967296) ++
            (255 :: 255 :: (List.replicate 512 255 ++ [255, 255]))),
          [true, false], ⟨false, false⟩, ct, .V1 0⟩) ∧
    write cfgTest (List.replicate 512 0) lba (mC7write ct) =
      (.ok (),
        ⟨[], [],
          255 :: (command_frame CMD24 (if ct = .SDHC then lba else (lba * 512) % 4294967296) ++
            (255 :: 254 :: (List.replicate 512 0 ++
              (0 :: 0 :: 255 :: 255 :: 255 :: (command_frame CMD13 0 ++ [255, 255]))))),
          [true, false], ⟨false, false⟩, ct, .V1 0⟩) := by
  have hwr : convert_lba (mC7read ct) lba =
      (if ct = .SDHC then lba else (lba * 512) % 4294967296) := by
    cases ct <;> simp [convert_lba, mC7read, mkMachine, BLOCK_SIZE, Nat.mod_eq_of_lt hl]
  have hww : convert_lba (mC7write ct) lba =
      (if ct = .SDHC then lba else (lba * 512) % 4294967296) := by
    cases ct <;> simp [convert_lba, mC7write, mkMachine, BLOCK_SIZE, Nat.mod_eq_of_lt hl]
  refine ⟨hwr, ?_, ?_⟩
  · unfold read
    rw [show (validate_buffer_len 512 : Except (DiskioError (Error Nat Nat)) Unit) = .ok ()
      from by decide]
    dsimp only
    rw [show validate_initialized (mC7read ct) = .ok () from by
      simp [validate_initialized, mC7read, mkMachine]]
    dsimp only
    unfold cs_scope select unselect
    rw [cs_switch_nil true (mC7read ct) (by simp [mC7read, mkMachine])]
    dsimp only
    rw [hwr]
    rw [show (get_block_count 512 == 1) = true from by decide,
      if_pos (show ((true : Bool) = true) from rfl)]
    unfold send_command
    rw [show ((CMD17 &&& ACMD_FLAG != 0) : Bool) = false from by decide,
      if_neg (show ¬((false : Bool) = true) from by decide)]
    dsimp only
    rw [show ((CMD17 : Nat) &&& 0x7F) = CMD17 from by decide]
    rw [send_command_impl_script cfgTest 1 1 CMD17 _ 0 _
      (.ok 0xFE :: (List.replicate 512 (Except.ok 0) ++ [Except.ok 0, Except.ok 0]))
      rfl rfl (by decide) (by decide) (by decide)
      (by simp [mC7read, mkMachine, cmdScript])]
    dsimp only
    rw [show (BLOCK_SIZE : Nat) = (List.replicate 512 (0 : Nat)).length from by
      simp [BLOCK_SIZE]]
    rw [read_data_script_ok cfgTest 1 (List.replicate 512 0) 0 0 [] _
      rfl (by simp) (by decide) (by decide) (by simp)]
    rw [crc16_zeros]
    rw [if_neg (show ¬(256 * 0 + 0 ≠ 0) from by decide)]
    dsimp only
    rw [cs_switch_nil false _ (by simp [mC7read, mkMachine])]
    dsimp only
    rw [command_frame_map_mod CMD17
      (if ct = CardType.SDHC then lba else lba * 512 % 4294967296) (by decide)]
    simp [mC7read, mkMachine, List.append_assoc]
  · unfold write
    rw [List.length_replicate]
    rw [show (validate_buffer_len 512 : Except (DiskioError (Error Nat Nat)) Unit) = .ok ()
      from by decide]
    dsimp only
    rw [show validate_initialized (mC7write ct) = .ok () from by
      simp [validate_initialized, mC7write, mkMachine]]
    dsimp only
    unfold cs_scope select unselect
    rw [cs_switch_nil true (mC7write ct) (by simp [mC7write, mkMachine])]
    dsimp only
    rw [hww]
    rw [show (get_block_count 512 == 1) = true from by decide,
      if_pos (show ((true : Bool) = true) from rfl)]
    unfold send_command
    rw [show ((CMD24 &&& ACMD_FLAG != 0) : Bool) = false from by decide,
      if_neg (show ¬((false : Bool) = true) from by decide)]
    dsimp only
    rw [show ((CMD24 : Nat) &&& 0x7F) = CMD24 from by decide]
    rw [send_command_impl_script cfgTest 1 1 CMD24 _ 0 _
      (Except.ok 0 :: (List.replicate 512 (Except.ok 0) ++
        (Except.ok 0 :: Except.ok 0 :: Except.ok 0x05 :: Except.ok 0xFF ::
          (cmdScript 0x00 ++ [Except.ok 0]))))
      rfl rfl (by decide) (by decide) (by decide)
      (by simp [mC7write, mkMachine, cmdScript])]
    dsimp only
    unfold write_data
    rw [crc16_zeros]
    rw [send_rx_ok DATA_START_BLOCK 0
      (List.replicate 512 (Except.ok 0) ++
        (Except.ok 0 :: Except.ok 0 :: Except.ok 0x05 :: Except.ok 0xFF ::
          (cmdScript 0x00 ++ [Except.ok 0]))) _ (by simp)]
    dsimp only
    rw [send_slice_oks (List.replicate 512 0) (List.replicate 512 0)
      (Except.ok 0 :: Except.ok 0 :: Except.ok 0x05 :: Except.ok 0xFF ::
        (cmdScript 0x00 ++ [Except.ok 0])) _ (by simp) rfl]
    dsimp only
    rw [send_rx_ok _ 0 (Except.ok 0 :: Except.ok 0x05 :: Except.ok 0xFF ::
      (cmdScript 0x00 ++ [Except.ok 0])) _ (by simp)]
    dsimp only
    rw [send_rx_ok _ 0 (Except.ok 0x05 :: Except.ok 0xFF ::
      (cmdScript 0x00 ++ [Except.ok 0])) _ (by simp)]
    dsimp only
    rw [receive_rx_ok 0x05 (Except.ok 0xFF :: (cmdScript 0x00 ++ [Except.ok 0])) _ (by simp)]
    dsimp only
    rw [show (((0x05 % 256 : Nat) &&& DATA_RES_MASK != DATA_RES_ACCEPTED) : Bool) = false
        from by decide,
      if_neg (show ¬((false : Bool) = true) from by decide)]
    dsimp only
    unfold wait_available_state wait_for_token
    rw [show cfgTest.CMD_MAX_ATTEMPTS = 1 + 1 from rfl]
    rw [wait_go_ok_head _ _ 1 0xFF (cmdScript 0x00 ++ [Except.ok 0]) _
      (by simp [cmdScript]) (by decide)]
    dsimp only
    rw [show ((CMD13 &&& ACMD_FLAG != 0) : Bool) = false from by decide,
      if_neg (show ¬((false : Bool) = true) from by decide)]
    dsimp only
    rw [show ((CMD13 : Nat) &&& 0x7F) = CMD13 from by decide]
    rw [send_command_impl_script cfgTest 1 1 CMD13 0 0 _ [Except.ok 0]
      rfl rfl (by decide) (by decide) (by decide) (by simp [cmdScript])]
    dsimp only
    rw [show ((0 != READY_STATE) : Bool) = false from by decide,
      if_neg (show ¬((false : Bool) = true) from by decide)]
    rw [receive_rx_ok 0 [] _ (by simp)]
    dsimp only
    rw [show ((0 % 256 != READY_STATE) : Bool) = false from by decide,
      if_neg (show ¬((false : Bool) = true) from by decide)]
    dsimp only
    rw [cs_switch_nil false _ (by simp [mC7write, mkMachine])]
    dsimp only
    rw [command_frame_map_mod CMD24
      (if ct = CardType.SDHC then lba else lba * 512 % 4294967296) (by decide),
      command_frame_map_mod CMD13 0 (by decide)]
    simp [mC7write, mkMachine, DATA_START_BLOCK, List.append_assoc]

/-- C7 witness: reading and writing block 42 on an SDHC card transmits the
data command with wire argument exactly 42. -/
theorem C7_lba_conversion_witness :
    convert_lba (mC7read .SDHC) 42 = 42 ∧
    read cfgTest 512 42 (mC7read .SDHC) =
      (.ok (List.replicate 512 0),
        ⟨[], [],
          255 :: (command_frame CMD17 42 ++
            (255 :: 255 :: (List.replicate 512 255 ++ [255, 255]))),
          [true, false], ⟨false, false⟩, .SDHC, .V1 0⟩) ∧
    write cfgTest (List.replicate 512 0) 42 (mC7write .SDHC) =
      (.ok (),
        ⟨[], [],
          255 :: (command_frame CMD24 42 ++
            (255 :: 254 :: (List.replicate 512 0 ++
              (0 :: 0 :: 255 :: 255 :: 255 :: (command_frame CMD13 0 ++ [255, 255]))))),
          [true, false], ⟨false, false⟩, .SDHC, .V1 0⟩) :=
  C7_lba_conversion 42 (by decide) .SDHC

end SdMmcSpi
